/-
Verification of the configuration-validation and request-orchestration core
of the GenAI-3D-VR-AR repository (src/genai_3d_vr_ar/config.py,
generate_environment.py, app.py), as a shallow embedding in Lean 4.

Modelling conventions:
* The process environment is a function `String → Option String`
  (`os.getenv` returning `None` for unset variables).
* Python truthiness on optional strings / numbers is modelled explicitly
  (`pyOrOpt`, `pyOrStr`, `pyOrInt`, `pyOrRat` mirror the `x or y` idiom).
* Python floats are modelled as rationals `ℚ`; the claims under study only
  compare, merge and default these values, never perform float arithmetic.
* External libraries (the watsonx `Model` class, the diffusers
  pipeline construction and invocation) are oracles passed in explicitly;
  the embedded functions record in a trace how often and with which
  arguments each oracle is consulted.
* Python exceptions become an explicit `PyExc` sum carried in `Except`;
  each `try/except` block of the source is translated case by case.
* The module-level mutable globals `_global_config` (config.py) and
  `_pipeline` (app.py) become explicit state threaded through the calls.
-/

import Mathlib

namespace GenAI3D

/-! ## Basic data -/

/-- The process environment: `os.getenv`. -/
def Env : Type := String → Option String

/-- `os.getenv(key, default)`: the default applies only when the variable is
unset (an empty-string value is returned as is). -/
def getenvD (env : Env) (key dflt : String) : String :=
  (env key).getD dflt

/-- Python `a or b` on two `Optional[str]` values: an unset or empty first
operand falls through to the second. -/
def pyOrOpt (a b : Option String) : Option String :=
  match a with
  | none => b
  | some s => if s = "" then b else some s

/-- Python `a or b` where `a : Optional[str]` and `b : str`. -/
def pyOrStr (a : Option String) (b : String) : String :=
  match a with
  | none => b
  | some s => if s = "" then b else s

/-- Python `a or b` where `a : Optional[int]` and `b : int`: `0` is falsy. -/
def pyOrInt (a : Option Int) (b : Int) : Int :=
  match a with
  | none => b
  | some n => if n = 0 then b else n

/-- Python `a or b` where `a : Optional[float]` and `b : float`: `0.0` is
falsy. -/
def pyOrRat (a : Option ℚ) (b : ℚ) : ℚ :=
  match a with
  | none => b
  | some q => if q = 0 then b else q

/-- Truthiness of an `Optional[str]`: `None` and `""` are falsy. -/
def optFalsy : Option String → Bool
  | none => true
  | some s => s = ""

/-- Python `str.strip()` (here for ASCII whitespace). -/
def pyStrip (s : String) : String :=
  String.mk (((s.data.dropWhile Char.isWhitespace).reverse.dropWhile Char.isWhitespace).reverse)

/-- Python `str.upper()` (here for ASCII letters). -/
def pyUpper (s : String) : String :=
  String.mk (s.data.map Char.toUpper)

/-- Python `str.lower()` (here for ASCII letters). -/
def pyLower (s : String) : String :=
  String.mk (s.data.map Char.toLower)

/-- Whether the first list is an initial segment of the second. -/
def isPre : List Char → List Char → Bool
  | [], _ => true
  | _ :: _, [] => false
  | a :: as, b :: bs => a = b && isPre as bs

/-- Python `str.startswith(pat)`. -/
def pyStartsWith (s pat : String) : Bool :=
  isPre pat.data s.data

/-- Whether `pat` occurs contiguously somewhere in `l`. -/
def containsAux (pat : List Char) (l : List Char) : Bool :=
  match l with
  | [] => isPre pat []
  | _ :: rest => isPre pat l || containsAux pat rest

/-- Python `pat in s`: substring test, used to state properties about status
messages. -/
def strContains (s pat : String) : Bool :=
  containsAux pat.data s.data

/-- Fold a digit list into a natural number. -/
def digitsToNat (cs : List Char) : Nat :=
  cs.foldl (fun acc c => 10 * acc + (c.toNat - '0'.toNat)) 0

/-- Python `int(s)` restricted to the decimal forms the configuration surface
uses: optional surrounding whitespace, an optional sign, then one or more
digits.  Everything else fails (raises `ValueError` in the source). -/
def pyParseInt (s : String) : Option Int :=
  match (pyStrip s).data with
  | [] => none
  | '-' :: rest =>
      if rest ≠ [] ∧ rest.all Char.isDigit then some (-(digitsToNat rest : Int)) else none
  | '+' :: rest =>
      if rest ≠ [] ∧ rest.all Char.isDigit then some (digitsToNat rest : Int) else none
  | cs =>
      if cs.all Char.isDigit then some (digitsToNat cs : Int) else none

/-- Value of an unsigned decimal `intPart.fracPart` as a rational. -/
def decimalToRat (intPart fracPart : List Char) : ℚ :=
  mkRat (digitsToNat intPart * 10 ^ fracPart.length + digitsToNat fracPart)
    (10 ^ fracPart.length)

/-- Split a character list at its first `'.'`, when present. -/
def breakAtDot : List Char → Option (List Char × List Char)
  | [] => none
  | c :: rest =>
      if c = '.' then some ([], rest)
      else
        match breakAtDot rest with
        | none => none
        | some (as, bs) => some (c :: as, bs)

/-- Unsigned part of Python `float(s)`: digit forms `d+`, `d+.d*`, `.d+`. -/
def pyParseFloatUnsigned (cs : List Char) : Option ℚ :=
  match breakAtDot cs with
  | none => if cs ≠ [] ∧ cs.all Char.isDigit then some (decimalToRat cs []) else none
  | some (as, bs) =>
      if (as ≠ [] ∨ bs ≠ []) ∧ as.all Char.isDigit ∧ bs.all Char.isDigit then
        some (decimalToRat as bs)
      else none

/-- Python `float(s)` restricted to the plain decimal forms the configuration
surface uses (no exponent, no `inf`/`nan`).  Everything else fails. -/
def pyParseFloat (s : String) : Option ℚ :=
  match (pyStrip s).data with
  | '-' :: rest => (pyParseFloatUnsigned rest).map (fun q => -q)
  | '+' :: rest => pyParseFloatUnsigned rest
  | cs => pyParseFloatUnsigned cs

/-! ## Exception taxonomy (config.py / generate_environment.py / app.py) -/

/-- The Python exception classes the core raises or catches. -/
inductive PyExc where
  | configurationError (msg : String)
  | watsonxModelError (msg : String)
  | imageGenerationError (msg : String)
  | valueError (msg : String)
  | otherError (msg : String)
deriving Repr, DecidableEq

/-- The message carried by an exception (`str(e)`). -/
def PyExc.msg : PyExc → String
  | .configurationError m => m
  | .watsonxModelError m => m
  | .imageGenerationError m => m
  | .valueError m => m
  | .otherError m => m

/-! ## Configuration records (config.py) -/

/-- `WatsonXConfig` dataclass. -/
structure WatsonXConfig where
  api_key : String
  project_id : String
  url : String := "https://us-south.ml.cloud.ibm.com"
  model_type : String := "ibm/mpt-7b-instruct2"
  max_tokens : Int := 250
  min_tokens : Int := 150
  temperature : ℚ := mkRat 7 10
  decoding_method : String := "sample"
deriving Repr, DecidableEq

/-- `StableDiffusionConfig` dataclass. -/
structure StableDiffusionConfig where
  model_id : String := "runwayml/stable-diffusion-v1-5"
  use_lora : Bool := true
  lora_model_id : String := "ProGamerGov/360-Diffusion-LoRA-sd-v1-5"
  trigger_word : String := "qxj"
  num_inference_steps : Int := 50
  guidance_scale : ℚ := mkRat 15 2
  device : String := "cuda"
deriving Repr, DecidableEq

/-- `ApplicationConfig` dataclass. -/
structure ApplicationConfig where
  debug : Bool := false
  log_level : String := "INFO"
  watsonx : WatsonXConfig
  stable_diffusion : StableDiffusionConfig
deriving Repr, DecidableEq

/-- Error text of `get_watsonx_config` for a bad API key. -/
def apiKeyErrMsg : String :=
  "API_KEY not found or contains placeholder value. Please set API_KEY environment variable with your IBM Cloud API key."

/-- Error text of `get_watsonx_config` for a bad project id. -/
def projectIdErrMsg : String :=
  "PROJECT_ID not found or contains placeholder value. Please set PROJECT_ID environment variable with your WatsonX.ai project ID."

/-- `config.get_watsonx_config`: resolve the credential (`API_KEY` falling
back to `api_key`) and project identifier (`PROJECT_ID` falling back to
`project_id`), reject falsy or `"<your"`-placeholder values, then read the
remaining fields with defaults; a numeric parse failure raises
`ConfigurationError`. -/
def get_watsonx_config (env : Env) : Except PyExc WatsonXConfig :=
  let api_key := pyOrOpt (env "API_KEY") (env "api_key")
  let project_id := pyOrOpt (env "PROJECT_ID") (env "project_id")
  if optFalsy api_key ∨ pyStartsWith (api_key.getD "") "<your" then
    .error (.configurationError apiKeyErrMsg)
  else if optFalsy project_id ∨ pyStartsWith (project_id.getD "") "<your" then
    .error (.configurationError projectIdErrMsg)
  else
    let url := getenvD env "WATSONX_URL" "https://us-south.ml.cloud.ibm.com"
    let model_type := getenvD env "WATSONX_MODEL_TYPE" "ibm/mpt-7b-instruct2"
    match pyParseInt (getenvD env "WATSONX_MAX_TOKENS" "250"),
          pyParseInt (getenvD env "WATSONX_MIN_TOKENS" "150"),
          pyParseFloat (getenvD env "WATSONX_TEMPERATURE" "0.7") with
    | some mx, some mn, some t =>
        .ok { api_key := api_key.getD ""
              project_id := project_id.getD ""
              url := url
              model_type := model_type
              max_tokens := mx
              min_tokens := mn
              temperature := t
              decoding_method := pyUpper (getenvD env "WATSONX_DECODING_METHOD" "sample") }
    | _, _, _ => .error (.configurationError "Invalid numeric configuration value")

/-- `config.get_stable_diffusion_config`: all fields default; the two numeric
fields are parsed inside one `try`, so a parse failure of either substitutes
the defaults `50` and `7.5` for both (lenient policy, never fails). -/
def get_stable_diffusion_config (env : Env) : StableDiffusionConfig :=
  let model_id := getenvD env "SD_MODEL_ID" "runwayml/stable-diffusion-v1-5"
  let use_lora := pyLower (getenvD env "SD_USE_LORA" "true") = "true"
  let lora_model_id := getenvD env "SD_LORA_MODEL_ID" "ProGamerGov/360-Diffusion-LoRA-sd-v1-5"
  let trigger_word := getenvD env "SD_TRIGGER_WORD" "qxj"
  let nums :=
    match pyParseInt (getenvD env "SD_NUM_INFERENCE_STEPS" "50"),
          pyParseFloat (getenvD env "SD_GUIDANCE_SCALE" "7.5") with
    | some n, some g => (n, g)
    | _, _ => ((50 : Int), mkRat 15 2)
  let device := getenvD env "SD_DEVICE" "cuda"
  { model_id := model_id
    use_lora := use_lora
    lora_model_id := lora_model_id
    trigger_word := trigger_word
    num_inference_steps := nums.1
    guidance_scale := nums.2
    device := device }

/-- `config.get_config`: assemble the application configuration (the
`.env`-file side effect is out of scope: the environment is an input). -/
def get_config (env : Env) : Except PyExc ApplicationConfig :=
  let debug := pyLower (getenvD env "DEBUG" "false") = "true"
  let log_level := pyUpper (getenvD env "LOG_LEVEL" "INFO")
  match get_watsonx_config env with
  | .error e => .error e
  | .ok w =>
      .ok { debug := debug
            log_level := log_level
            watsonx := w
            stable_diffusion := get_stable_diffusion_config env }

/-- `config.get_global_config`: lazily initialised process-wide cache
(`_global_config`).  Returns the call result, the new cache state, and
whether load-and-validate (`get_config`) ran on this call. -/
def get_global_config (st : Option ApplicationConfig) (env : Env) :
    Except PyExc ApplicationConfig × Option ApplicationConfig × Bool :=
  match st with
  | some c => (.ok c, some c, false)
  | none =>
      match get_config env with
      | .ok c => (.ok c, some c, true)
      | .error e => (.error e, none, true)

/-! ## External collaborators as oracles -/

/-- A PIL image; only its size is observable to the core. -/
structure PILImage where
  width : Nat
  height : Nat
deriving Repr, DecidableEq

/-- Arguments of the `Model(...)` constructor call in `get_model`. -/
structure ModelParams where
  model_id : String
  max_new_tokens : Int
  min_new_tokens : Int
  decoding_method : String
  temperature : ℚ
  apikey : String
  url : String
  project_id : String
deriving Repr, DecidableEq

/-- Behaviour of the external libraries, supplied per run.  `mkModel` is the
watsonx `Model` constructor (an error models any exception it raises);
`modelGenerate` is `model.generate` (`none` models a falsy or malformed
response envelope, `some l` a response whose results list carries the
generated texts); `buildPipeline` collapses the pipeline-construction body of
`app.get_pipeline` (`from_pretrained`, the swallowed LoRA attachment, device
move), which consists solely of external-library calls; `runPipeline` is the
pipeline invocation (an error models an exception, `ok l` a result whose
`images` list is `l`, with the falsy-result case folded into the empty
list). -/
structure Oracles where
  env : Env
  mkModel : ModelParams → Except String Nat
  modelGenerate : Nat → String → Option (List String)
  buildPipeline : StableDiffusionConfig → Except String Nat
  runPipeline : Nat → String → Int → ℚ → Except String (List PILImage)

instance {ε α : Type} [DecidableEq ε] [DecidableEq α] : DecidableEq (Except ε α)
  | .ok a, .ok b =>
      if h : a = b then isTrue (by rw [h]) else isFalse (by simp [h])
  | .ok _, .error _ => isFalse (by simp)
  | .error _, .ok _ => isFalse (by simp)
  | .error a, .error b =>
      if h : a = b then isTrue (by rw [h]) else isFalse (by simp [h])

/-! ## Enrichment client (generate_environment.py) -/

/-- The `decoding_method_map` dictionary of `get_model` (the enum values are
represented by their lower-case names). -/
def decoding_method_map (s : String) : Option String :=
  if s = "sample" then some "sample"
  else if s = "greedy" then some "greedy"
  else none

/-- `generate_environment.get_model`: validate temperature, token bounds and
decoding method in source order, then construct the backend model inside a
`try` that wraps any constructor failure in `WatsonXModelError`.  The second
component counts `Model(...)` constructor invocations. -/
def get_model (mkModel : ModelParams → Except String Nat) (model_type : String)
    (max_tokens min_tokens : Int) (decoding : String) (temperature : ℚ)
    (api_key project_id : String)
    (url : String := "https://us-south.ml.cloud.ibm.com") :
    Except PyExc Nat × Nat :=
  if ¬ (0 ≤ temperature ∧ temperature ≤ 1) then
    (.error (.valueError
      ("Temperature must be between 0.0 and 1.0, got " ++ toString temperature)), 0)
  else if min_tokens > max_tokens then
    (.error (.valueError
      ("min_tokens (" ++ toString min_tokens ++ ") cannot be greater than max_tokens ("
        ++ toString max_tokens ++ ")")), 0)
  else if max_tokens ≤ 0 then
    (.error (.valueError ("max_tokens must be positive, got " ++ toString max_tokens)), 0)
  else
    match decoding_method_map (pyLower decoding) with
    | none =>
        (.error (.valueError
          ("Invalid decoding method " ++ decoding ++ ". Must be sample or greedy")), 0)
    | some dm =>
        match mkModel { model_id := model_type
                        max_new_tokens := max_tokens
                        min_new_tokens := min_tokens
                        decoding_method := dm
                        temperature := temperature
                        apikey := api_key
                        url := url
                        project_id := project_id } with
        | .ok m => (.ok m, 1)
        | .error e =>
            (.error (.watsonxModelError ("Failed to create WatsonX.ai model: " ++ e)), 1)

/-- The merged parameters `generate_environment` passes to `get_model`. -/
structure GenEnvArgs where
  model_type : String
  max_tokens : Int
  min_tokens : Int
  decoding : String
  temperature : ℚ
deriving Repr, DecidableEq

/-- Observable outcome of one `generate_environment` call. -/
structure GenEnvResult where
  result : Except PyExc String
  configState : Option ApplicationConfig
  getModelArgs : Option GenEnvArgs
  modelConstructCalls : Nat
deriving Repr, DecidableEq

/-- The fixed instructional template wrapped around the prompt. -/
def enhancedPromptTemplate (prompt : String) : String :=
  "Generate a detailed, vivid description of the following environment for 3D scene generation. Include details about lighting, atmosphere, textures, and spatial layout:\n\n"
    ++ prompt

/-- `generate_environment.generate_environment`: reject an empty prompt, load
the cached configuration, merge caller overrides with the Python `or`
operator, call `get_model`, invoke the backend once and extract the first
result text, trimmed.  `ConfigurationError` and `WatsonXModelError` are
re-raised as is; any other exception (e.g. the `ValueError` of parameter
validation) is wrapped in `WatsonXModelError` by the generic handler. -/
def generate_environment (O : Oracles) (st : Option ApplicationConfig)
    (prompt : String) (model_type : Option String := none)
    (max_tokens : Option Int := none) (min_tokens : Option Int := none)
    (decoding : Option String := none) (temperature : Option ℚ := none) :
    GenEnvResult :=
  if pyStrip prompt = "" then
    { result := .error (.valueError "Prompt cannot be empty")
      configState := st, getModelArgs := none, modelConstructCalls := 0 }
  else
    match get_global_config st O.env with
    | (.error e, st1, _) =>
        { result := .error e, configState := st1
          getModelArgs := none, modelConstructCalls := 0 }
    | (.ok cfg, st1, _) =>
        let w := cfg.watsonx
        let mt := pyOrStr model_type w.model_type
        let mx := pyOrInt max_tokens w.max_tokens
        let mn := pyOrInt min_tokens w.min_tokens
        let dec := pyOrStr decoding w.decoding_method
        let temp := pyOrRat temperature w.temperature
        let args : GenEnvArgs := ⟨mt, mx, mn, dec, temp⟩
        match get_model O.mkModel mt mx mn dec temp w.api_key w.project_id w.url with
        | (.error (.watsonxModelError m), n) =>
            { result := .error (.watsonxModelError m), configState := st1
              getModelArgs := some args, modelConstructCalls := n }
        | (.error e, n) =>
            { result := .error (.watsonxModelError
                ("Unexpected error during environment generation: " ++ e.msg))
              configState := st1, getModelArgs := some args, modelConstructCalls := n }
        | (.ok model, n) =>
            match O.modelGenerate model (enhancedPromptTemplate prompt) with
            | none =>
                { result := .error (.watsonxModelError "Model returned empty or invalid response")
                  configState := st1, getModelArgs := some args, modelConstructCalls := n }
            | some [] =>
                { result := .error (.watsonxModelError "Model returned empty or invalid response")
                  configState := st1, getModelArgs := some args, modelConstructCalls := n }
            | some (txt :: _) =>
                { result := .ok (pyStrip txt), configState := st1
                  getModelArgs := some args, modelConstructCalls := n }

/-! ## Image generation client and orchestrator (app.py) -/

/-- The module-level mutable state of the application: the configuration
cache of config.py and the pipeline cache of app.py. -/
structure AppState where
  _global_config : Option ApplicationConfig
  _pipeline : Option Nat
deriving Repr, DecidableEq

/-- Observable outcome of one `get_pipeline` call: the result, the new
state, and how many pipeline constructions were attempted. -/
structure GetPipelineResult where
  result : Except PyExc Nat
  state : AppState
  builds : Nat
deriving Repr, DecidableEq

/-- `app.get_pipeline`: return the cached pipeline if present; otherwise load
the configuration and construct the pipeline, caching it on success.  Every
exception inside the `try` (including a `ConfigurationError` from
`get_global_config`) is wrapped in `ImageGenerationError`, and on failure the
cache stays empty. -/
def get_pipeline (O : Oracles) (st : AppState) : GetPipelineResult :=
  match st._pipeline with
  | some p => { result := .ok p, state := st, builds := 0 }
  | none =>
      match get_global_config st._global_config O.env with
      | (.error e, st1, _) =>
          { result := .error (.imageGenerationError
              ("Failed to initialize Stable Diffusion pipeline: " ++ e.msg))
            state := { _global_config := st1, _pipeline := none }, builds := 0 }
      | (.ok cfg, st1, _) =>
          match O.buildPipeline cfg.stable_diffusion with
          | .ok p =>
              { result := .ok p
                state := { _global_config := st1, _pipeline := some p }, builds := 1 }
          | .error e =>
              { result := .error (.imageGenerationError
                  ("Failed to initialize Stable Diffusion pipeline: " ++ e))
                state := { _global_config := st1, _pipeline := none }, builds := 1 }

/-- Run a sequence of `get_pipeline` calls, each with its own oracles
(environment, pipeline-construction behaviour), threading the state and
accumulating the number of construction attempts. -/
def run_get_pipeline_calls (st : AppState) :
    List Oracles → List (Except PyExc Nat) × AppState × Nat
  | [] => ([], st, 0)
  | O :: Os =>
      let r := get_pipeline O st
      let rest := run_get_pipeline_calls r.state Os
      (r.result :: rest.1, rest.2.1, r.builds + rest.2.2)

/-- One invocation of the image pipeline as recorded in the trace. -/
structure PipeCall where
  prompt : String
  num_inference_steps : Int
  guidance_scale : ℚ
deriving Repr, DecidableEq

/-- Trace of backend activity during one `generate_360_image` request. -/
structure Trace where
  envGenCalls : Nat := 0
  modelConstructCalls : Nat := 0
  pipelineBuilds : Nat := 0
  pipelineRuns : List PipeCall := []
deriving Repr, DecidableEq

/-- Observable outcome of one `generate_360_image` request: the returned
(image, status message) pair, the new process state, and the trace. -/
structure Gen360Result where
  image : Option PILImage
  message : String
  state : AppState
  trace : Trace
deriving Repr, DecidableEq

/-- The success status message of `generate_360_image`. -/
def successMessage (img : PILImage) (steps : Int) (guidance : ℚ) : String :=
  "✅ Success! Generated 360° image\nResolution: " ++ toString img.width ++ "x"
    ++ toString img.height ++ "\nInference Steps: " ++ toString steps
    ++ "\nGuidance Scale: " ++ toString guidance

/-- How the outer `except` clauses of `generate_360_image` turn an exception
into the returned status message: `ConfigurationError` and
`ImageGenerationError` have dedicated clauses, everything else falls to the
generic handler. -/
def excToMessage : PyExc → String
  | .configurationError m =>
      "❌ Configuration Error: " ++ m ++ "\n\nPlease check your .env file."
  | .imageGenerationError m => "❌ Image Generation Error: " ++ m
  | e => "❌ Unexpected Error: " ++ e.msg

/-- Step 4 of `generate_360_image` (source lines 178-181): when the LoRA
style adapter is enabled and a trigger word is configured (a non-empty
string, by Python truthiness), prepend the trigger word and a space to the
working prompt; otherwise pass the working prompt through unchanged. -/
def decorate (sd : StableDiffusionConfig) (workingPrompt : String) : String :=
  if sd.use_lora ∧ sd.trigger_word ≠ "" then sd.trigger_word ++ " " ++ workingPrompt
  else workingPrompt

/-- Steps 4 and 5 of `generate_360_image` (source lines 178-211): decorate
the working prompt with the LoRA trigger word when enabled and configured,
obtain the pipeline, invoke it once, and require a non-empty images list
(`raise ImageGenerationError("Pipeline returned no images")` otherwise,
absorbed by the outer handler). -/
def gen360_generate (O : Oracles) (st : AppState) (sd : StableDiffusionConfig)
    (workingPrompt : String) (steps : Int) (guidance : ℚ) (tr : Trace) : Gen360Result :=
  let finalPrompt := decorate sd workingPrompt
  let pr := get_pipeline O st
  let tr1 : Trace := { tr with pipelineBuilds := tr.pipelineBuilds + pr.builds }
  match pr.result with
  | .error e => { image := none, message := excToMessage e, state := pr.state, trace := tr1 }
  | .ok p =>
      let tr2 : Trace :=
        { tr1 with pipelineRuns := tr1.pipelineRuns ++ [⟨finalPrompt, steps, guidance⟩] }
      match O.runPipeline p finalPrompt steps guidance with
      | .error m =>
          { image := none, message := "❌ Unexpected Error: " ++ m
            state := pr.state, trace := tr2 }
      | .ok [] =>
          { image := none
            message := "❌ Image Generation Error: Pipeline returned no images"
            state := pr.state, trace := tr2 }
      | .ok (img :: _) =>
          { image := some img, message := successMessage img steps guidance
            state := pr.state, trace := tr2 }

/-- `app.generate_360_image`: validate the prompt, resolve configuration,
merge the numeric overrides of the caller with the Python `or` operator, enrich
the prompt (absorbing `WatsonXModelError` into a logged warning and falling
back to the original prompt — the warning text assigned to the local
`status_msg` is later overwritten and never returned), then decorate and
generate.  Every failure is mapped to `(None, error message)` by the outer
`except` clauses. -/
def generate_360_image (O : Oracles) (st : AppState) (prompt : String)
    (enrichment_type : String) (custom_data : Option String := none)
    (num_inference_steps : Option Int := none)
    (guidance_scale : Option ℚ := none) : Gen360Result :=
  if pyStrip prompt = "" then
    { image := none, message := "❌ Error: Prompt cannot be empty", state := st, trace := {} }
  else
    match get_global_config st._global_config O.env with
    | (.error e, cst, _) =>
        { image := none, message := excToMessage e
          state := { _global_config := cst, _pipeline := st._pipeline }, trace := {} }
    | (.ok cfg, cst, _) =>
        let sd := cfg.stable_diffusion
        let steps := pyOrInt num_inference_steps sd.num_inference_steps
        let guidance := pyOrRat guidance_scale sd.guidance_scale
        let er := generate_environment O cst prompt
        let st2 : AppState := { _global_config := er.configState, _pipeline := st._pipeline }
        let tr1 : Trace := { envGenCalls := 1, modelConstructCalls := er.modelConstructCalls }
        match er.result with
        | .error (.watsonxModelError _) =>
            gen360_generate O st2 sd prompt steps guidance tr1
        | .error e =>
            { image := none, message := excToMessage e, state := st2, trace := tr1 }
        | .ok enriched =>
            gen360_generate O st2 sd enriched steps guidance tr1

/-! ## Concrete fixtures for witnesses and counterexamples -/

/-- Environment with a valid credential and project identifier and all other
settings left to their defaults. -/
def envGood : Env := fun k =>
  if k = "API_KEY" then some "k"
  else if k = "PROJECT_ID" then some "p"
  else none

/-- The configuration `get_config` resolves from `envGood`. -/
def appConfigGood : ApplicationConfig :=
  { debug := false
    log_level := "INFO"
    watsonx := { api_key := "k", project_id := "p", decoding_method := "SAMPLE" }
    stable_diffusion := {} }

/-- Backends that all succeed: enrichment returns one generated text and the
pipeline returns one 512×512 image. -/
def oraclesHappy : Oracles :=
  { env := envGood
    mkModel := fun _ => .ok 0
    modelGenerate := fun _ _ => some ["Enriched prompt description"]
    buildPipeline := fun _ => .ok 0
    runPipeline := fun _ _ _ _ => .ok [⟨512, 512⟩] }

/-- Backends where the watsonx model constructor raises, so enrichment fails
with `WatsonXModelError`; image generation still succeeds. -/
def oraclesEnrichFail : Oracles :=
  { oraclesHappy with mkModel := fun _ => .error "API Error" }

/-- Backends where the image pipeline returns an empty images list. -/
def oraclesNoImages : Oracles :=
  { oraclesHappy with runPipeline := fun _ _ _ _ => .ok [] }

/-- Fresh process state: nothing cached yet. -/
def stEmpty : AppState := { _global_config := none, _pipeline := none }

/-- Environment with valid credentials but an unparsable enrichment numeric
setting. -/
def envBadWatsonxNum : Env := fun k =>
  if k = "API_KEY" then some "k"
  else if k = "PROJECT_ID" then some "p"
  else if k = "WATSONX_MAX_TOKENS" then some "abc"
  else none

/-- Environment with valid credentials but an unparsable image-generation
numeric setting. -/
def envBadSDNum : Env := fun k =>
  if k = "API_KEY" then some "k"
  else if k = "PROJECT_ID" then some "p"
  else if k = "SD_NUM_INFERENCE_STEPS" then some "abc"
  else none

/-- Environment whose credential is set to the empty string (present, and not
a placeholder) with a valid project identifier. -/
def envEmptyKey : Env := fun k =>
  if k = "API_KEY" then some ""
  else if k = "PROJECT_ID" then some "p"
  else none

/-- Environment whose credential is a placeholder value. -/
def envPlaceholderKey : Env := fun k =>
  if k = "API_KEY" then some "<your_api_key>"
  else if k = "PROJECT_ID" then some "p"
  else none

/-! ## Helper lemmas -/

@[simp] theorem pyOrInt_none (d : Int) : pyOrInt none d = d := rfl

@[simp] theorem pyOrInt_some_zero (d : Int) : pyOrInt (some 0) d = d := by
  simp [pyOrInt]

@[simp] theorem pyOrRat_none (d : ℚ) : pyOrRat none d = d := rfl

@[simp] theorem pyOrRat_some_zero (d : ℚ) : pyOrRat (some 0) d = d := by
  simp [pyOrRat]

/-- A `get_pipeline` call that finds the cache populated returns the cached
handle, leaves the state unchanged, and attempts no construction. -/
theorem get_pipeline_cached (O : Oracles) (st : AppState) (p : Nat)
    (h : st._pipeline = some p) :
    get_pipeline O st = { result := .ok p, state := st, builds := 0 } := by
  unfold get_pipeline
  rw [h]

/-- A `get_pipeline` call that returns a pipeline leaves that pipeline in the
cache. -/
theorem get_pipeline_ok_pipeline (O : Oracles) (st : AppState) (p : Nat)
    (h : (get_pipeline O st).result = .ok p) :
    (get_pipeline O st).state._pipeline = some p := by
  unfold get_pipeline at h ⊢
  cases hs : st._pipeline with
  | some q =>
      rw [hs] at h ⊢
      simp at h ⊢
      exact h
  | none =>
      rw [hs] at h
      rcases hg : get_global_config st._global_config O.env with ⟨r, st1, b⟩
      rw [hg] at h
      cases r with
      | error e => simp at h
      | ok cfg =>
          cases hb : O.buildPipeline cfg.stable_diffusion with
          | ok q =>
              simp [hb] at h ⊢
              exact h
          | error e => simp [hb] at h

/-- With a populated cache, an arbitrary sequence of further `get_pipeline`
calls — each with arbitrary oracles, hence arbitrary configuration — returns
the cached handle every time, changes nothing, and performs zero
constructions. -/
theorem run_get_pipeline_calls_cached (p : Nat) (Os : List Oracles) :
    ∀ st : AppState, st._pipeline = some p →
      run_get_pipeline_calls st Os = (Os.map (fun _ => Except.ok p), st, 0) := by
  induction Os with
  | nil => intro st h; rfl
  | cons O Os ih =>
      intro st h
      unfold run_get_pipeline_calls
      simp [get_pipeline_cached O st p h, ih st h]

/-! ## Claims -/

/-- C2: for every prompt that is empty or consists only of whitespace,
`generate_360_image` returns no image and a status message carrying the error
indicator, and makes no backend call at all: `generate_environment` is never
entered, no enrichment model is constructed, no pipeline is built and no
pipeline invocation happens. -/
theorem c2_empty_prompt_no_calls (O : Oracles) (st : AppState)
    (prompt etype : String) (cd : Option String) (n : Option Int) (g : Option ℚ)
    (h : pyStrip prompt = "") :
    (generate_360_image O st prompt etype cd n g).image = none ∧
    (generate_360_image O st prompt etype cd n g).message = "❌ Error: Prompt cannot be empty" ∧
    strContains (generate_360_image O st prompt etype cd n g).message "❌" = true ∧
    (generate_360_image O st prompt etype cd n g).trace.envGenCalls = 0 ∧
    (generate_360_image O st prompt etype cd n g).trace.modelConstructCalls = 0 ∧
    (generate_360_image O st prompt etype cd n g).trace.pipelineBuilds = 0 ∧
    (generate_360_image O st prompt etype cd n g).trace.pipelineRuns = [] := by
  have hg : generate_360_image O st prompt etype cd n g =
      { image := none, message := "❌ Error: Prompt cannot be empty"
        state := st, trace := {} } := by
    unfold generate_360_image
    rw [if_pos h]
  rw [hg]
  refine ⟨rfl, rfl, ?_, rfl, rfl, rfl, rfl⟩
  show strContains "❌ Error: Prompt cannot be empty" "❌" = true
  decide

/-- C2 witness: the whitespace-only prompt. -/
theorem c2_empty_prompt_no_calls_witness :
    (generate_360_image oraclesHappy stEmpty "   " "Standard" none none none).image = none ∧
    (generate_360_image oraclesHappy stEmpty "   " "Standard" none none none).message
      = "❌ Error: Prompt cannot be empty" ∧
    strContains (generate_360_image oraclesHappy stEmpty "   " "Standard" none none none).message "❌" = true ∧
    (generate_360_image oraclesHappy stEmpty "   " "Standard" none none none).trace.envGenCalls = 0 ∧
    (generate_360_image oraclesHappy stEmpty "   " "Standard" none none none).trace.modelConstructCalls = 0 ∧
    (generate_360_image oraclesHappy stEmpty "   " "Standard" none none none).trace.pipelineBuilds = 0 ∧
    (generate_360_image oraclesHappy stEmpty "   " "Standard" none none none).trace.pipelineRuns = [] :=
  c2_empty_prompt_no_calls oraclesHappy stEmpty "   " "Standard" none none none (by decide)

/-- C3: for every parameter set violating an enrichment-client precondition —
temperature outside [0,1], min tokens greater than max tokens, max tokens not
positive, or a decoding method outside the known set — `get_model` returns a
parameter-validation error (`ValueError`) and the backend `Model` constructor
is never invoked, whatever its behaviour would be; in particular the min/max
violation is covered for all values of the remaining parameters. -/
theorem c3_get_model_validation (mk : ModelParams → Except String Nat)
    (mt : String) (mx mn : Int) (dec : String) (t : ℚ) (ak pid u : String)
    (h : ¬ (0 ≤ t ∧ t ≤ 1) ∨ mn > mx ∨ mx ≤ 0 ∨
         decoding_method_map (pyLower dec) = none) :
    (∃ m, (get_model mk mt mx mn dec t ak pid u).1 = .error (.valueError m)) ∧
    (get_model mk mt mx mn dec t ak pid u).2 = 0 := by
  unfold get_model
  by_cases h1 : ¬ (0 ≤ t ∧ t ≤ 1)
  · rw [if_pos h1]
    exact ⟨⟨_, rfl⟩, rfl⟩
  · rw [if_neg h1]
    by_cases h2 : mn > mx
    · rw [if_pos h2]
      exact ⟨⟨_, rfl⟩, rfl⟩
    · rw [if_neg h2]
      by_cases h3 : mx ≤ 0
      · rw [if_pos h3]
        exact ⟨⟨_, rfl⟩, rfl⟩
      · rw [if_neg h3]
        have h4 : decoding_method_map (pyLower dec) = none := by
          rcases h with h | h | h | h
          · exact absurd h h1
          · exact absurd h h2
          · exact absurd h h3
          · exact h
        rw [h4]
        exact ⟨⟨_, rfl⟩, rfl⟩

/-- C3 witness: min tokens 5 greater than max tokens 3, all other parameters
valid, with a backend constructor that would succeed. -/
theorem c3_get_model_validation_witness :
    (∃ m, (get_model (fun _ => .ok 7) "ibm/mpt-7b-instruct2" 3 5 "sample" (mkRat 1 2)
        "k" "p" "https://us-south.ml.cloud.ibm.com").1 = .error (.valueError m)) ∧
    (get_model (fun _ => .ok 7) "ibm/mpt-7b-instruct2" 3 5 "sample" (mkRat 1 2)
        "k" "p" "https://us-south.ml.cloud.ibm.com").2 = 0 :=
  c3_get_model_validation (fun _ => .ok 7) "ibm/mpt-7b-instruct2" 3 5 "sample" (mkRat 1 2)
    "k" "p" "https://us-south.ml.cloud.ibm.com" (by decide)

/-- C4: once a `get_pipeline` call has returned a pipeline, any sequence of
subsequent calls — with arbitrary oracles, hence ignoring any configuration
change — returns that same cached handle unconditionally, leaves the state
unchanged, and performs zero further pipeline constructions: construction is
invoked at most once per process lifetime. -/
theorem c4_pipeline_built_once (O0 : Oracles) (st0 : AppState) (p : Nat)
    (h : (get_pipeline O0 st0).result = .ok p) (Os : List Oracles) :
    run_get_pipeline_calls (get_pipeline O0 st0).state Os
      = (Os.map (fun _ => Except.ok p), (get_pipeline O0 st0).state, 0) :=
  run_get_pipeline_calls_cached p Os _ (get_pipeline_ok_pipeline O0 st0 p h)

/-- C4 witness: a first successful call followed by two calls with different
oracles. -/
theorem c4_pipeline_built_once_witness :
    run_get_pipeline_calls (get_pipeline oraclesHappy stEmpty).state
        [oraclesEnrichFail, oraclesNoImages]
      = ([oraclesEnrichFail, oraclesNoImages].map (fun _ => Except.ok 0),
         (get_pipeline oraclesHappy stEmpty).state, 0) :=
  c4_pipeline_built_once oraclesHappy stEmpty 0 (by decide) [oraclesEnrichFail, oraclesNoImages]

/-- C6: configuration resolution is idempotent within one process: when
load-and-validate succeeds, the first `get_global_config` call runs it and
caches the result, and the second call returns the identical cached instance
without running load-and-validate again. -/
theorem c6_config_idempotent (env : Env) (c : ApplicationConfig)
    (h : get_config env = .ok c) :
    get_global_config none env = (.ok c, some c, true) ∧
    get_global_config (get_global_config none env).2.1 env = (.ok c, some c, false) := by
  have h1 : get_global_config none env = (.ok c, some c, true) := by
    unfold get_global_config
    rw [h]
  exact ⟨h1, by rw [h1]; rfl⟩

/-- C6 witness: the default environment with valid credentials. -/
theorem c6_config_idempotent_witness :
    get_global_config none envGood = (.ok appConfigGood, some appConfigGood, true) ∧
    get_global_config (get_global_config none envGood).2.1 envGood
      = (.ok appConfigGood, some appConfigGood, false) :=
  c6_config_idempotent envGood appConfigGood (by decide)

/-- C5: numeric-parse failure handling is asymmetric.  In an environment with
acceptable credentials, a parse failure for any enrichment numeric field (max
tokens, min tokens, temperature) makes `get_watsonx_config` fail with
`ConfigurationError`, while a parse failure for either image-generation
numeric field (inference steps, guidance scale) leaves
`get_stable_diffusion_config` successful with the defaults 50 and 7.5
silently substituted. -/
theorem c5_numeric_parse_asymmetry (env envSD : Env) (ak pid : String)
    (hak : pyOrOpt (env "API_KEY") (env "api_key") = some ak)
    (hak1 : ak ≠ "") (hak2 : pyStartsWith ak "<your" = false)
    (hpid : pyOrOpt (env "PROJECT_ID") (env "project_id") = some pid)
    (hpid1 : pid ≠ "") (hpid2 : pyStartsWith pid "<your" = false)
    (hnum : pyParseInt (getenvD env "WATSONX_MAX_TOKENS" "250") = none ∨
            pyParseInt (getenvD env "WATSONX_MIN_TOKENS" "150") = none ∨
            pyParseFloat (getenvD env "WATSONX_TEMPERATURE" "0.7") = none)
    (hsd : pyParseInt (getenvD envSD "SD_NUM_INFERENCE_STEPS" "50") = none ∨
           pyParseFloat (getenvD envSD "SD_GUIDANCE_SCALE" "7.5") = none) :
    get_watsonx_config env
      = .error (.configurationError "Invalid numeric configuration value") ∧
    (get_stable_diffusion_config envSD).num_inference_steps = 50 ∧
    (get_stable_diffusion_config envSD).guidance_scale = mkRat 15 2 := by
  constructor
  · unfold get_watsonx_config
    rw [hak, hpid]
    rw [if_neg (by simp [optFalsy, hak1, hak2])]
    rw [if_neg (by simp [optFalsy, hpid1, hpid2])]
    split
    · rcases hnum with h | h | h <;> simp_all
    · rfl
  · unfold get_stable_diffusion_config
    rcases hsd with h | h
    · rw [h]
      exact ⟨rfl, rfl⟩
    · cases hi : pyParseInt (getenvD envSD "SD_NUM_INFERENCE_STEPS" "50") with
      | none => exact ⟨rfl, rfl⟩
      | some n =>
          rw [h]
          exact ⟨rfl, rfl⟩

/-- C5 witness: credentials valid, `WATSONX_MAX_TOKENS` and
`SD_NUM_INFERENCE_STEPS` both set to the unparsable text abc. -/
theorem c5_numeric_parse_asymmetry_witness :
    get_watsonx_config envBadWatsonxNum
      = .error (.configurationError "Invalid numeric configuration value") ∧
    (get_stable_diffusion_config envBadSDNum).num_inference_steps = 50 ∧
    (get_stable_diffusion_config envBadSDNum).guidance_scale = mkRat 15 2 :=
  c5_numeric_parse_asymmetry envBadWatsonxNum envBadSDNum "k" "p"
    (by decide) (by decide) (by decide) (by decide) (by decide) (by decide)
    (by decide) (by decide)

/-- C7 counterexample: with the credential set to the empty string it is
present in the environment and does not begin with the placeholder text, and
the project identifier is valid, yet configuration resolution is rejected —
refuting the claim that in every case other than an absent or
placeholder-prefixed value both values are accepted as given. -/
theorem c7_empty_credential_rejected :
    envEmptyKey "API_KEY" = some "" ∧
    pyStartsWith "" "<your" = false ∧
    envEmptyKey "PROJECT_ID" = some "p" ∧
    pyStartsWith "p" "<your" = false ∧
    get_watsonx_config envEmptyKey = .error (.configurationError apiKeyErrMsg) := by
  decide

/-- C7 as amended: resolution fails with `ConfigurationError` whenever the
resolved credential (`API_KEY`, falling back to `api_key`) or the resolved
project identifier is missing, empty, or begins with the placeholder text
`<your`; in every other case both values are accepted as given (any remaining
failure is only the numeric-parse `ConfigurationError`). -/
theorem c7_credential_validation (env : Env) :
    (optFalsy (pyOrOpt (env "API_KEY") (env "api_key")) = true ∨
        pyStartsWith ((pyOrOpt (env "API_KEY") (env "api_key")).getD "") "<your" = true →
      get_watsonx_config env = .error (.configurationError apiKeyErrMsg)) ∧
    (¬ (optFalsy (pyOrOpt (env "API_KEY") (env "api_key")) = true ∨
          pyStartsWith ((pyOrOpt (env "API_KEY") (env "api_key")).getD "") "<your" = true) →
      (optFalsy (pyOrOpt (env "PROJECT_ID") (env "project_id")) = true ∨
          pyStartsWith ((pyOrOpt (env "PROJECT_ID") (env "project_id")).getD "") "<your" = true) →
      get_watsonx_config env = .error (.configurationError projectIdErrMsg)) ∧
    (∀ c, get_watsonx_config env = .ok c →
      c.api_key = (pyOrOpt (env "API_KEY") (env "api_key")).getD "" ∧
      c.project_id = (pyOrOpt (env "PROJECT_ID") (env "project_id")).getD "") ∧
    (∀ e, get_watsonx_config env = .error e →
      e = .configurationError apiKeyErrMsg ∨
      e = .configurationError projectIdErrMsg ∨
      e = .configurationError "Invalid numeric configuration value") := by
  refine ⟨fun hA => ?_, fun hA hP => ?_, fun c hc => ?_, fun e he => ?_⟩
  · unfold get_watsonx_config
    rw [if_pos hA]
  · unfold get_watsonx_config
    rw [if_neg hA, if_pos hP]
  · unfold get_watsonx_config at hc
    by_cases hA : (optFalsy (pyOrOpt (env "API_KEY") (env "api_key")) = true ∨
        pyStartsWith ((pyOrOpt (env "API_KEY") (env "api_key")).getD "") "<your" = true)
    · rw [if_pos hA] at hc
      exact absurd hc (by simp)
    · rw [if_neg hA] at hc
      by_cases hP : (optFalsy (pyOrOpt (env "PROJECT_ID") (env "project_id")) = true ∨
          pyStartsWith ((pyOrOpt (env "PROJECT_ID") (env "project_id")).getD "") "<your" = true)
      · rw [if_pos hP] at hc
        exact absurd hc (by simp)
      · rw [if_neg hP] at hc
        split at hc
        · injection hc with h2
          subst h2
          exact ⟨rfl, rfl⟩
        · exact absurd hc (by simp)
  · unfold get_watsonx_config at he
    by_cases hA : (optFalsy (pyOrOpt (env "API_KEY") (env "api_key")) = true ∨
        pyStartsWith ((pyOrOpt (env "API_KEY") (env "api_key")).getD "") "<your" = true)
    · rw [if_pos hA] at he
      injection he with h2
      exact Or.inl h2.symm
    · rw [if_neg hA] at he
      by_cases hP : (optFalsy (pyOrOpt (env "PROJECT_ID") (env "project_id")) = true ∨
          pyStartsWith ((pyOrOpt (env "PROJECT_ID") (env "project_id")).getD "") "<your" = true)
      · rw [if_pos hP] at he
        injection he with h2
        exact Or.inr (Or.inl h2.symm)
      · rw [if_neg hP] at he
        split at he
        · exact absurd he (by simp)
        · injection he with h2
          exact Or.inr (Or.inr h2.symm)

/-- C7 witness for the amended claim: the placeholder environment is rejected
with the credential error, and from the valid environment both values are
accepted exactly as given. -/
theorem c7_credential_validation_witness :
    get_watsonx_config envPlaceholderKey = .error (.configurationError apiKeyErrMsg) ∧
    (appConfigGood.watsonx.api_key
        = (pyOrOpt (envGood "API_KEY") (envGood "api_key")).getD "" ∧
      appConfigGood.watsonx.project_id
        = (pyOrOpt (envGood "PROJECT_ID") (envGood "project_id")).getD "") :=
  ⟨(c7_credential_validation envPlaceholderKey).1 (by decide),
   (c7_credential_validation envGood).2.2.1 appConfigGood.watsonx (by decide)⟩

/-- C10: caller-supplied numeric overrides that are falsy are silently
treated as absent, because overrides are merged with the Python `or`
operator: passing inference steps 0 or guidance scale 0.0 to
`generate_360_image`, or temperature 0.0 (a valid temperature) to
`generate_environment`, behaves identically to omitting the override, so the
configured default is substituted for the supplied value. -/
theorem c10_falsy_overrides_defaulted :
    (∀ (O : Oracles) (st : AppState) (prompt etype : String) (cd : Option String)
        (g : Option ℚ),
      generate_360_image O st prompt etype cd (some 0) g
        = generate_360_image O st prompt etype cd none g) ∧
    (∀ (O : Oracles) (st : AppState) (prompt etype : String) (cd : Option String)
        (n : Option Int),
      generate_360_image O st prompt etype cd n (some 0)
        = generate_360_image O st prompt etype cd n none) ∧
    (∀ (O : Oracles) (st : Option ApplicationConfig) (prompt : String)
        (mt : Option String) (mx mn : Option Int) (dec : Option String),
      generate_environment O st prompt mt mx mn dec (some 0)
        = generate_environment O st prompt mt mx mn dec none) := by
  refine ⟨fun O st prompt etype cd g => ?_, fun O st prompt etype cd n => ?_,
    fun O st prompt mt mx mn dec => ?_⟩
  · unfold generate_360_image
    simp only [pyOrInt_some_zero, pyOrInt_none]
  · unfold generate_360_image
    simp only [pyOrRat_some_zero, pyOrRat_none]
  · unfold generate_environment
    simp only [pyOrRat_some_zero, pyOrRat_none]

/-- With the configuration already cached, `generate_environment` leaves the
configuration cache unchanged. -/
theorem generate_environment_cached_configState (O : Oracles)
    (cfg : ApplicationConfig) (prompt : String) (mt : Option String)
    (mx mn : Option Int) (dec : Option String) (t : Option ℚ) :
    (generate_environment O (some cfg) prompt mt mx mn dec t).configState = some cfg := by
  unfold generate_environment
  split
  · rfl
  · simp only [get_global_config]
    split
    all_goals try rfl
    all_goals split <;> rfl

/-- Reduction of `generate_360_image` when the prompt is valid, the
configuration resolves, and enrichment succeeds: the request proceeds to the
generation stage with the enriched prompt as working prompt. -/
theorem gen360_step_ok (O : Oracles) (st : AppState) (prompt etype : String)
    (cd : Option String) (n : Option Int) (g : Option ℚ) (cfg : ApplicationConfig)
    (b : Bool) (s : String)
    (h1 : ¬ pyStrip prompt = "")
    (hc : get_global_config st._global_config O.env = (.ok cfg, some cfg, b))
    (he : (generate_environment O (some cfg) prompt).result = .ok s) :
    generate_360_image O st prompt etype cd n g =
      gen360_generate O { _global_config := some cfg, _pipeline := st._pipeline }
        cfg.stable_diffusion s
        (pyOrInt n cfg.stable_diffusion.num_inference_steps)
        (pyOrRat g cfg.stable_diffusion.guidance_scale)
        { envGenCalls := 1
          modelConstructCalls :=
            (generate_environment O (some cfg) prompt).modelConstructCalls } := by
  unfold generate_360_image
  rw [if_neg h1]
  simp only [hc]
  rw [generate_environment_cached_configState]
  simp only [he]

/-- Reduction of `generate_360_image` when the prompt is valid, the
configuration resolves, and enrichment raises `WatsonXModelError`: the request
does not terminate but proceeds to the generation stage with the original
prompt as working prompt. -/
theorem gen360_step_err (O : Oracles) (st : AppState) (prompt etype : String)
    (cd : Option String) (n : Option Int) (g : Option ℚ) (cfg : ApplicationConfig)
    (b : Bool) (m : String)
    (h1 : ¬ pyStrip prompt = "")
    (hc : get_global_config st._global_config O.env = (.ok cfg, some cfg, b))
    (he : (generate_environment O (some cfg) prompt).result
        = .error (.watsonxModelError m)) :
    generate_360_image O st prompt etype cd n g =
      gen360_generate O { _global_config := some cfg, _pipeline := st._pipeline }
        cfg.stable_diffusion prompt
        (pyOrInt n cfg.stable_diffusion.num_inference_steps)
        (pyOrRat g cfg.stable_diffusion.guidance_scale)
        { envGenCalls := 1
          modelConstructCalls :=
            (generate_environment O (some cfg) prompt).modelConstructCalls } := by
  unfold generate_360_image
  rw [if_neg h1]
  simp only [hc]
  rw [generate_environment_cached_configState]
  simp only [he]

/-- C1 counterexample: at a concrete request whose enrichment call raises
the backend error (`WatsonXModelError`) and whose image backend returns one
image, `generate_360_image` does return a non-empty image after exactly one
pipeline call — but the returned status message is the plain success message,
which contains no warning flag, refuting the warning-flagged-status part of
the claim (the warning text assigned to the local `status_msg` in the source
is overwritten before the return). -/
theorem c1_warning_not_returned :
    (generate_environment oraclesEnrichFail (some appConfigGood) "a tropical beach").result
      = .error (.watsonxModelError "Failed to create WatsonX.ai model: API Error") ∧
    (generate_360_image oraclesEnrichFail stEmpty "a tropical beach" "Standard").image
      = some ⟨512, 512⟩ ∧
    (generate_360_image oraclesEnrichFail stEmpty "a tropical beach" "Standard").trace.pipelineRuns.length
      = 1 ∧
    (generate_360_image oraclesEnrichFail stEmpty "a tropical beach" "Standard").message
      = successMessage ⟨512, 512⟩ 50 (mkRat 15 2) ∧
    strContains (generate_360_image oraclesEnrichFail stEmpty "a tropical beach" "Standard").message
      "⚠" = false := by
  decide

/-- C1 as amended: for every non-empty prompt, if the enrichment call raises
`WatsonXModelError`, `generate_360_image` does not terminate: it proceeds to
call the image backend exactly once with the original prompt as working
prompt (decorated with the trigger word exactly as a successful enrichment
would be), and returns a non-empty image together with the plain success
status message — the warning is logged, not returned. -/
theorem c1_enrichment_fallback (O : Oracles) (st : AppState) (prompt etype : String)
    (cd : Option String) (n : Option Int) (g : Option ℚ) (cfg : ApplicationConfig)
    (b : Bool) (m : String) (p : Nat) (img : PILImage) (imgs : List PILImage)
    (h1 : ¬ pyStrip prompt = "")
    (hc : get_global_config st._global_config O.env = (.ok cfg, some cfg, b))
    (he : (generate_environment O (some cfg) prompt).result
        = .error (.watsonxModelError m))
    (hp : (get_pipeline O { _global_config := some cfg, _pipeline := st._pipeline }).result
        = .ok p)
    (hr : O.runPipeline p (decorate cfg.stable_diffusion prompt)
        (pyOrInt n cfg.stable_diffusion.num_inference_steps)
        (pyOrRat g cfg.stable_diffusion.guidance_scale) = .ok (img :: imgs)) :
    (generate_360_image O st prompt etype cd n g).image = some img ∧
    (generate_360_image O st prompt etype cd n g).message
      = successMessage img (pyOrInt n cfg.stable_diffusion.num_inference_steps)
          (pyOrRat g cfg.stable_diffusion.guidance_scale) ∧
    (generate_360_image O st prompt etype cd n g).trace.pipelineRuns
      = [⟨decorate cfg.stable_diffusion prompt,
          pyOrInt n cfg.stable_diffusion.num_inference_steps,
          pyOrRat g cfg.stable_diffusion.guidance_scale⟩] ∧
    (generate_360_image O st prompt etype cd n g).trace.envGenCalls = 1 := by
  rw [gen360_step_err O st prompt etype cd n g cfg b m h1 hc he]
  unfold gen360_generate
  simp only [hp]
  simp only [hr]
  refine ⟨by trivial, by trivial, by trivial, by trivial⟩

/-- C1 witness for the amended claim. -/
theorem c1_enrichment_fallback_witness :
    (generate_360_image oraclesEnrichFail stEmpty "a tropical beach" "Standard" none none none).image
      = some ⟨512, 512⟩ ∧
    (generate_360_image oraclesEnrichFail stEmpty "a tropical beach" "Standard" none none none).message
      = successMessage ⟨512, 512⟩
          (pyOrInt none appConfigGood.stable_diffusion.num_inference_steps)
          (pyOrRat none appConfigGood.stable_diffusion.guidance_scale) ∧
    (generate_360_image oraclesEnrichFail stEmpty "a tropical beach" "Standard" none none none).trace.pipelineRuns
      = [⟨decorate appConfigGood.stable_diffusion "a tropical beach",
          pyOrInt none appConfigGood.stable_diffusion.num_inference_steps,
          pyOrRat none appConfigGood.stable_diffusion.guidance_scale⟩] ∧
    (generate_360_image oraclesEnrichFail stEmpty "a tropical beach" "Standard" none none none).trace.envGenCalls
      = 1 :=
  c1_enrichment_fallback oraclesEnrichFail stEmpty "a tropical beach" "Standard"
    none none none appConfigGood true "Failed to create WatsonX.ai model: API Error"
    0 ⟨512, 512⟩ [] (by decide) (by decide) (by decide) (by decide) (by decide)

/-- C8: when the request reaches the generation stage with working prompt
`s`, the pipeline is invoked exactly once, and the prompt it receives is the
trigger word prepended to `s` when the style adapter is enabled and a trigger
word is configured, and `s` unchanged otherwise. -/
theorem c8_trigger_word_decoration (O : Oracles) (st : AppState) (prompt etype : String)
    (cd : Option String) (n : Option Int) (g : Option ℚ) (cfg : ApplicationConfig)
    (b : Bool) (s : String) (p : Nat)
    (h1 : ¬ pyStrip prompt = "")
    (hc : get_global_config st._global_config O.env = (.ok cfg, some cfg, b))
    (he : (generate_environment O (some cfg) prompt).result = .ok s)
    (hp : (get_pipeline O { _global_config := some cfg, _pipeline := st._pipeline }).result
        = .ok p) :
    (generate_360_image O st prompt etype cd n g).trace.pipelineRuns
      = [⟨(if cfg.stable_diffusion.use_lora ∧ cfg.stable_diffusion.trigger_word ≠ ""
            then cfg.stable_diffusion.trigger_word ++ " " ++ s else s),
          pyOrInt n cfg.stable_diffusion.num_inference_steps,
          pyOrRat g cfg.stable_diffusion.guidance_scale⟩] := by
  rw [gen360_step_ok O st prompt etype cd n g cfg b s h1 hc he]
  unfold gen360_generate
  simp only [hp]
  cases hr : O.runPipeline p (decorate cfg.stable_diffusion s)
      (pyOrInt n cfg.stable_diffusion.num_inference_steps)
      (pyOrRat g cfg.stable_diffusion.guidance_scale) with
  | error m => simp [hr, decorate]
  | ok imgs =>
      cases imgs with
      | nil => simp [hr, decorate]
      | cons i is => simp [hr, decorate]

/-- C8 witness: the default configuration has the adapter enabled with
trigger word qxj, so the enriched prompt is decorated. -/
theorem c8_trigger_word_decoration_witness :
    (generate_360_image oraclesHappy stEmpty "a tropical beach" "Standard" none none none).trace.pipelineRuns
      = [⟨(if appConfigGood.stable_diffusion.use_lora ∧
              appConfigGood.stable_diffusion.trigger_word ≠ ""
            then appConfigGood.stable_diffusion.trigger_word ++ " "
              ++ "Enriched prompt description"
            else "Enriched prompt description"),
          pyOrInt none appConfigGood.stable_diffusion.num_inference_steps,
          pyOrRat none appConfigGood.stable_diffusion.guidance_scale⟩] :=
  c8_trigger_word_decoration oraclesHappy stEmpty "a tropical beach" "Standard"
    none none none appConfigGood true "Enriched prompt description" 0
    (by decide) (by decide) (by decide) (by decide)

/-- C9: when the image pipeline invocation returns a result containing zero
images, `generate_360_image` absorbs the raised `ImageGenerationError` and
returns no image and an error-indicator message, even though enrichment
succeeded earlier in the same request. -/
theorem c9_zero_images_error (O : Oracles) (st : AppState) (prompt etype : String)
    (cd : Option String) (n : Option Int) (g : Option ℚ) (cfg : ApplicationConfig)
    (b : Bool) (s : String) (p : Nat)
    (h1 : ¬ pyStrip prompt = "")
    (hc : get_global_config st._global_config O.env = (.ok cfg, some cfg, b))
    (he : (generate_environment O (some cfg) prompt).result = .ok s)
    (hp : (get_pipeline O { _global_config := some cfg, _pipeline := st._pipeline }).result
        = .ok p)
    (hr : O.runPipeline p (decorate cfg.stable_diffusion s)
        (pyOrInt n cfg.stable_diffusion.num_inference_steps)
        (pyOrRat g cfg.stable_diffusion.guidance_scale) = .ok []) :
    (generate_360_image O st prompt etype cd n g).image = none ∧
    (generate_360_image O st prompt etype cd n g).message
      = "❌ Image Generation Error: Pipeline returned no images" ∧
    strContains (generate_360_image O st prompt etype cd n g).message "❌" = true := by
  rw [gen360_step_ok O st prompt etype cd n g cfg b s h1 hc he]
  unfold gen360_generate
  simp only [hp]
  simp only [hr]
  refine ⟨by trivial, by trivial, ?_⟩
  show strContains "❌ Image Generation Error: Pipeline returned no images" "❌" = true
  decide

/-- C9 witness: enrichment succeeds, the pipeline returns an empty images
list. -/
theorem c9_zero_images_error_witness :
    (generate_360_image oraclesNoImages stEmpty "a tropical beach" "Standard" none none none).image
      = none ∧
    (generate_360_image oraclesNoImages stEmpty "a tropical beach" "Standard" none none none).message
      = "❌ Image Generation Error: Pipeline returned no images" ∧
    strContains (generate_360_image oraclesNoImages stEmpty "a tropical beach" "Standard" none none none).message
      "❌" = true :=
  c9_zero_images_error oraclesNoImages stEmpty "a tropical beach" "Standard"
    none none none appConfigGood true "Enriched prompt description" 0
    (by decide) (by decide) (by decide) (by decide) (by decide)

end GenAI3D
